import Mathlib

set_option maxHeartbeats 1000000
set_option maxRecDepth 4000

/-!
Verification of the volume-provisioning controller of dearcode/csi-lvm
(package `controller`): volume-name derivation (`makeVolumeName`), claim
data-source validation and the create-volume backoff loop of `Provision`,
the post-create capacity check, snapshot content-source resolution
(`getVolumeContentSource`), and secret-reference template resolution
(`getSecretReference` / `resolveTemplate`), together with theorems about
their behaviour.

Modelling conventions:
- Go `error` values on the driver-call path are `GoError` (either an error
  carrying a gRPC status code, for which `status.FromError` reports `ok`,
  or a plain `fmt.Errorf` message); elsewhere errors are their message
  strings.
- A Go function that can panic is modelled with an `Option` result, `none`
  standing for the panic.
- Go maps are association lists consulted with `List.lookup`; the comma-ok
  map read `v, ok := m[k]` becomes `(l.lookup k).getD ""` / `.isSome`.
- Remote calls (CSI driver, API server) are supplied as function arguments,
  the create-volume call indexed by the attempt number, so that the pure
  control flow around them can be analysed.
- Library functions the controller calls — `wait.ExponentialBackoff` from
  k8s.io/apimachinery, `os.Expand` from the Go standard library, and
  `validation.IsDNS1123Label` / `IsDNS1123Subdomain` from
  k8s.io/apimachinery — are embedded from their (era-accurate) sources.
-/

/-- Go error value as seen by the create-volume path: either an error with a
gRPC status (`status.FromError` succeeds and yields `code`), or a plain
error built by `fmt.Errorf` / `errors.New`. -/
inductive GoError where
  | grpc (code : Nat) (msg : String)
  | plain (msg : String)
  deriving DecidableEq

/-- CSI `Volume` message inside a `CreateVolumeResponse`: the driver-chosen
id, the allocated capacity in bytes (`int64`), and the opaque attributes. -/
structure CsiVolume where
  id : String
  capacityBytes : Int
  attributes : List (String × String)
  deriving DecidableEq

/-- Constant `backoffSteps = 10` from the controller source. -/
def backoffSteps : Nat := 10

/-- Numeric value of `codes.DeadlineExceeded` in the gRPC codes package. -/
def codeDeadlineExceeded : Nat := 4

/-- The `wait.ErrWaitTimeout` sentinel returned by `wait.ExponentialBackoff`
when the steps are exhausted: `errors.New("timed out waiting for the
condition")`. -/
def errWaitTimeout : GoError := GoError.plain "timed out waiting for the condition"

/-- Test performed by the backoff closure in `Provision`: an error is
retryable exactly when `status.FromError(err)` succeeds and the code is
`codes.DeadlineExceeded`. -/
def isDeadlineRetryable : GoError → Bool
  | GoError.grpc code _ => code == codeDeadlineExceeded
  | GoError.plain _ => false

/-- The condition closure passed to `wait.ExponentialBackoff` by `Provision`
(lines 245-263): call `CreateVolume` (the response of attempt `i` is
`driver i`); on success report done; on a deadline-exceeded status report
retry `(false, nil)`; on any other error return it, aborting the loop. -/
def createVolumeCondition (driver : Nat → Except GoError CsiVolume) (i : Nat) :
    Bool × Option GoError :=
  match driver i with
  | Except.ok _ => (true, none)
  | Except.error e => if isDeadlineRetryable e then (false, none) else (false, some e)

/-- Body of `wait.ExponentialBackoff` (k8s.io/apimachinery/pkg/util/wait):
up to `n` remaining invocations of the condition, `made` invocations already
made; when the condition yields `(ok, err)` with `err ≠ nil ∨ ok` it returns
`err`, otherwise it sleeps and retries; exhausting all steps returns
`ErrWaitTimeout`.  The result also counts the condition invocations made. -/
def exponentialBackoffAux (cond : Nat → Bool × Option GoError) :
    Nat → Nat → Option GoError × Nat
  | 0, made => (some errWaitTimeout, made)
  | Nat.succ n, made =>
    let r := cond made
    if r.2.isSome || r.1 then (r.2, made + 1)
    else exponentialBackoffAux cond n (made + 1)

/-- `wait.ExponentialBackoff` with `Steps = steps` (the sleep durations do
not affect which value is returned and are dropped). -/
def exponentialBackoff (steps : Nat) (cond : Nat → Bool × Option GoError) :
    Option GoError × Nat :=
  exponentialBackoffAux cond steps 0

/-- The create-volume backoff loop of `Provision` (lines 244-267): the value
assigned to `err` by `err = wait.ExponentialBackoff(opts, ...)`, which
`Provision` returns (as `(nil, err)`) when non-nil, paired with the number
of `CreateVolume` attempts made. -/
def provisionCreateVolume (steps : Nat) (driver : Nat → Except GoError CsiVolume) :
    Option GoError × Nat :=
  exponentialBackoff steps (createVolumeCondition driver)

/-- `makeVolumeName` (lines 121-138).  `none` models the Go panic raised by
the slice expression `[0:volumeNameUUIDLength]` when the index is negative
or exceeds the length of the dash-stripped UID. -/
def makeVolumeName (pfx pvcUID : String) (volumeNameUUIDLength : Int) :
    Option (Except String String) :=
  if pfx.length = 0 then
    some (Except.error "Volume name prefix cannot be of length 0")
  else if pvcUID.length = 0 then
    some (Except.error "corrupted PVC object, it is missing UID")
  else if volumeNameUUIDLength = -1 then
    some (Except.ok (pfx ++ "-" ++ pvcUID))
  else
    let stripped := pvcUID.toList.filter (fun c => c != '-')
    if 0 ≤ volumeNameUUIDLength ∧ volumeNameUUIDLength.toNat ≤ stripped.length then
      some (Except.ok (pfx ++ "-" ++ String.mk (stripped.take volumeNameUUIDLength.toNat)))
    else none

/-- Constant `snapshotKind` from the controller source. -/
def snapshotKind : String := "VolumeSnapshot"

/-- Constant `snapshotAPIGroup` (`snapapi.GroupName`). -/
def snapshotAPIGroup : String := "snapshot.storage.k8s.io"

/-- `PVC.Spec.DataSource`: `apiGroup` is a `*string` in Go, so `none` is the
nil pointer. -/
structure DataSource where
  name : String
  kind : String
  apiGroup : Option String
  deriving DecidableEq

/-- The data-source validation prefix of `Provision` (lines 145-158).
Result `some (ok b)` is `needSnapshotSupport = b`; `some (error m)` is an
early `return nil, fmt.Errorf(...)`; `none` is the panic raised by
dereferencing `*(options.PVC.Spec.DataSource.APIGroup)` when the pointer is
nil. -/
def checkDataSource (pvcName : String) (ds : Option DataSource) :
    Option (Except String Bool) :=
  match ds with
  | none => some (Except.ok false)
  | some d =>
    if d.name = "" then
      some (Except.error ("the PVC source not found for PVC " ++ pvcName))
    else if d.kind ≠ snapshotKind then
      some (Except.error ("the PVC source is not the right type. Expected " ++
        snapshotKind ++ ", Got " ++ d.kind))
    else
      match d.apiGroup with
      | none => none
      | some g =>
        if g ≠ snapshotAPIGroup then
          some (Except.error ("the PVC source does not belong to the right APIGroup. Expected " ++
            snapshotAPIGroup ++ ", Got " ++ g))
        else some (Except.ok true)

/-- The post-create capacity check of `Provision` (lines 276-290): given the
driver-returned volume and the requested `volSizeBytes`, either proceed with
the returned capacity (`ok respCap`) or fail; the second component lists the
volume ids for which a compensating `DeleteVolume` call was issued.
`deleteVolume id` is the error message of that call, `none` on success. -/
def provisionCapacityCheck (vol : CsiVolume) (volSizeBytes : Int) (pvName : String)
    (deleteVolume : String → Option String) : Except String Int × List String :=
  let respCap := vol.capacityBytes
  if respCap < volSizeBytes then
    let capMsg := "created volume capacity " ++ toString respCap ++
      " less than requested capacity " ++ toString volSizeBytes
    match deleteVolume vol.id with
    | none => (Except.error capMsg, [vol.id])
    | some e =>
      (Except.error (capMsg ++ ". Cleanup of volume " ++ pvName ++
        " failed, volume is orphaned: " ++ e), [vol.id])
  else (Except.ok respCap, [])

/-- `VolumeSnapshotContent.Spec.VolumeSnapshotRef`: the object reference
back to the snapshot (UID, namespace, name). -/
structure SnapshotRef where
  uid : String
  ns : String
  name : String
  deriving DecidableEq

/-- `VolumeSnapshotContent`: `volumeSnapshotRef` is a nil-able pointer and
`csiSnapshotHandle` models `Spec.VolumeSnapshotSource.CSI` (nil pointer or
the `SnapshotHandle` it carries). -/
structure VolumeSnapshotContent where
  volumeSnapshotRef : Option SnapshotRef
  csiSnapshotHandle : Option String
  deriving DecidableEq

/-- `VolumeSnapshot` object as read from the API server: `beingDeleted`
models `ObjectMeta.DeletionTimestamp != nil`; `restoreSize` is
`Status.RestoreSize` (nil-able quantity, taken at its `Value()` in bytes). -/
structure VolumeSnapshot where
  name : String
  ns : String
  uid : String
  snapshotContentName : String
  statusReady : Bool
  beingDeleted : Bool
  restoreSize : Option Int
  deriving DecidableEq

/-- The single user-facing message shared by the content-object checks of
`getVolumeContentSource`. -/
def snapshotNotBoundMsg : String := "snapshot in dataSource not bound or invalid"

/-- `getVolumeContentSource` (lines 333-398).  `getSnapshot ns name` is the
API-server read of the `VolumeSnapshot`, `getContent name` of its
`VolumeSnapshotContent`; `requestedStorage` is the comma-ok lookup of the
storage request in `PVC.Spec.Resources.Requests`.  On success the returned
string is the driver snapshot handle placed in the
`VolumeContentSource_SnapshotSource` of the request. -/
def getVolumeContentSource (pvcName pvcNs dataSourceName : String)
    (requestedStorage : Option Int)
    (getSnapshot : String → String → Except String VolumeSnapshot)
    (getContent : String → Except String VolumeSnapshotContent) :
    Except String String :=
  match getSnapshot pvcNs dataSourceName with
  | Except.error e =>
    Except.error ("error getting snapshot " ++ dataSourceName ++ " from api server: " ++ e)
  | Except.ok snap =>
    if snap.statusReady = false then
      Except.error ("snapshot " ++ dataSourceName ++ " is not Ready")
    else if snap.beingDeleted then
      Except.error ("snapshot " ++ dataSourceName ++ " is currently being deleted")
    else
      match getContent snap.snapshotContentName with
      | Except.error _ => Except.error snapshotNotBoundMsg
      | Except.ok content =>
        match content.volumeSnapshotRef with
        | none => Except.error snapshotNotBoundMsg
        | some ref =>
          if ref.uid ≠ snap.uid ∨ ref.ns ≠ snap.ns ∨ ref.name ≠ snap.name then
            Except.error snapshotNotBoundMsg
          else
            match content.csiSnapshotHandle with
            | none => Except.error snapshotNotBoundMsg
            | some handle =>
              match snap.restoreSize with
              | none => Except.ok handle
              | some rs =>
                match requestedStorage with
                | none =>
                  Except.error ("error getting capacity for PVC " ++ pvcName ++
                    " when creating snapshot " ++ snap.name)
                | some cap =>
                  if cap < rs then
                    Except.error ("requested volume size " ++ toString cap ++
                      " is less than the size " ++ toString rs ++
                      " for the source snapshot " ++ snap.name)
                  else Except.ok handle

/-- `isShellSpecialVar` from the Go standard library `os` package. -/
def isShellSpecialVar (c : Char) : Bool :=
  c == '*' || c == '#' || c == '$' || c == '@' || c == '!' || c == '?' || c == '-' ||
    (decide ('0' ≤ c) && decide (c ≤ '9'))

/-- `isAlphaNum` from the Go standard library `os` package. -/
def isAlphaNum (c : Char) : Bool :=
  c == '_' || (decide ('0' ≤ c) && decide (c ≤ '9')) ||
    (decide ('a' ≤ c) && decide (c ≤ 'z')) || (decide ('A' ≤ c) && decide (c ≤ 'Z'))

/-- Characters of `l` strictly before its first `'}'`, or `none` when `l`
has no closing brace (the scan loop of `getShellName`). -/
def breakAtBrace : List Char → Option (List Char)
  | [] => none
  | c :: rest => if c = '}' then some [] else (breakAtBrace rest).map (fun l => c :: l)

/-- `getShellName` from the Go standard library `os` package (Go 1.11, the
toolchain era of this repository): given the text after a `'$'`, return the
referenced name and the number of characters consumed after the `'$'`. -/
def getShellName : List Char → List Char × Nat
  | [] => ([], 0)
  | c :: rest =>
    if c = '{' then
      match rest with
      | c1 :: c2 :: _ =>
        if isShellSpecialVar c1 && c2 == '}' then ([c1], 3)
        else
          match breakAtBrace rest with
          | some pre => (pre, pre.length + 2)
          | none => ([], 1)
      | _ =>
        match breakAtBrace rest with
        | some pre => (pre, pre.length + 2)
        | none => ([], 1)
    else if isShellSpecialVar c then ([c], 1)
    else
      let an := (c :: rest).takeWhile isAlphaNum
      (an, an.length)

/-- `os.Expand` (Go 1.11) specialised to the mapping closure inside
`resolveTemplate`: the mapping substitutes `params[k]` (the empty string
when absent).  The result carries the expanded text, the list of every name
handed to the mapping, and the list of names the mapping failed to find
(the ones the closure inserts into `missingParams`), both in encounter
order.  `fuel` only bounds the recursion; every step consumes at least one
character, so any `fuel` larger than the input length is exact. -/
def expandGo (params : List (String × String)) : Nat → List Char → List Char × List String × List String
  | 0, s => (s, [], [])
  | Nat.succ fuel, s =>
    match s with
    | [] => ([], [], [])
    | c :: rest =>
      if c = '$' ∧ rest ≠ [] then
        let name := String.mk (getShellName rest).1
        let r := expandGo params fuel (rest.drop (getShellName rest).2)
        (((params.lookup name).getD "").toList ++ r.1,
          name :: r.2.1,
          if (params.lookup name).isSome then r.2.2 else name :: r.2.2)
      else
        let r := expandGo params fuel rest
        (c :: r.1, r.2.1, r.2.2)

/-- Insert into a sorted duplicate-free list of strings (the behaviour of
`sets.String.Insert` as observed through `List()`). -/
def sortedInsert (x : String) : List String → List String
  | [] => [x]
  | y :: rest =>
    if x = y then y :: rest
    else if x < y then x :: y :: rest
    else y :: sortedInsert x rest

/-- `sets.NewString` fed one by one and read back with `List()`: the sorted
duplicate-free list of the inserted strings. -/
def sortedDedup (l : List String) : List String :=
  l.foldl (fun acc x => sortedInsert x acc) []

/-- Rendering of a string under the `%q` verb of `fmt` (tokens here contain
no characters that `%q` escapes). -/
def goQuote (s : String) : String := "\"" ++ s ++ "\""

/-- Rendering of a `[]string` under the `%q` verb of `fmt`. -/
def quoteList (l : List String) : String :=
  "[" ++ String.intercalate " " (l.map goQuote) ++ "]"

/-- Every name the `os.Expand` scan of `template` hands to the mapping
closure (in particular the token of each well-formed occurrence of a
dollar-brace-token-brace form). -/
def templateTokens (params : List (String × String)) (template : String) : List String :=
  (expandGo params (template.length + 1) template.toList).2.1

/-- `resolveTemplate` (lines 525-538): expand the template over `params`,
collecting the missing tokens; when any are missing fail with the
`invalid tokens` error enumerating all of them (sorted, deduplicated, as
`sets.String.List()` yields them), otherwise return the expansion. -/
def resolveTemplate (template : String) (params : List (String × String)) :
    Except String String :=
  let r := expandGo params (template.length + 1) template.toList
  let missing := sortedDedup r.2.2
  if missing.length > 0 then
    Except.error ("invalid tokens: " ++ quoteList missing)
  else Except.ok (String.mk r.1)

/-- Lower-case alphanumeric character class of the DNS-1123 regular
expressions in k8s.io/apimachinery/pkg/util/validation. -/
def isLowerAlnum (c : Char) : Bool :=
  (decide ('a' ≤ c) && decide (c ≤ 'z')) || (decide ('0' ≤ c) && decide (c ≤ '9'))

/-- Match of the anchored regular expression
`[a-z0-9]([-a-z0-9]*[a-z0-9])?` used for DNS-1123 labels. -/
def dns1123LabelMatch (l : List Char) : Bool :=
  l.all (fun c => isLowerAlnum c || c == '-') &&
    (match l.head? with | some c => isLowerAlnum c | none => false) &&
    (match l.getLast? with | some c => isLowerAlnum c | none => false)

/-- Validity boolean of `validation.IsDNS1123Label`: true exactly when the
returned error list is empty (length at most 63 and regular-expression
match). -/
def isDNS1123Label (s : String) : Bool :=
  decide (s.length ≤ 63) && dns1123LabelMatch s.toList

/-- Validity boolean of `validation.IsDNS1123Subdomain`: length at most 253
and a dot-separated sequence of DNS-1123 labels. -/
def isDNS1123Subdomain (s : String) : Bool :=
  decide (s.length ≤ 253) && (s.toList.splitOn '.').all dns1123LabelMatch

/-- The fields of a `PersistentVolumeClaim` consulted when building the
token maps for secret-reference resolution. -/
structure PVCInfo where
  name : String
  ns : String
  annotations : List (String × String)
  deriving DecidableEq

/-- A single-quote character as a string, used in the annotation-derived
token keys. -/
def squote : String := String.singleton (Char.ofNat 39)

/-- The namespace-template token map built by `getSecretReference`
(lines 480-483): the PV name always, the PVC namespace when a PVC is in
scope. -/
def namespaceParamsOf (pvName : String) (pvc : Option PVCInfo) : List (String × String) :=
  match pvc with
  | none => [("pv.name", pvName)]
  | some p => [("pv.name", pvName), ("pvc.namespace", p.ns)]

/-- The name-template token map built by `getSecretReference`
(lines 501-508): the PV name always; PVC name, namespace, and one
annotation-derived token per PVC annotation when a PVC is in scope. -/
def nameParamsOf (pvName : String) (pvc : Option PVCInfo) : List (String × String) :=
  match pvc with
  | none => [("pv.name", pvName)]
  | some p =>
    [("pv.name", pvName), ("pvc.name", p.name), ("pvc.namespace", p.ns)] ++
      p.annotations.map (fun kv => ("pvc.annotations[" ++ squote ++ kv.1 ++ squote ++ "]", kv.2))

/-- `v1.SecretReference`: the coordinates of a secret. -/
structure SecretReference where
  ns : String
  name : String
  deriving DecidableEq

/-- `getSecretReference` (lines 463-523).  `Except.ok none` is the
`nil, nil` return; templates are read from `params` with comma-ok map
lookups; the DNS validity checks model
`len(validation.IsDNS1123Label(...)) > 0` / `IsDNS1123Subdomain`. -/
def getSecretReference (nameKey namespaceKey : String) (params : List (String × String))
    (pvName : String) (pvc : Option PVCInfo) : Except String (Option SecretReference) :=
  let nameTemplate := (params.lookup nameKey).getD ""
  let hasName := (params.lookup nameKey).isSome
  let namespaceTemplate := (params.lookup namespaceKey).getD ""
  let hasNamespace := (params.lookup namespaceKey).isSome
  if hasName = false ∧ hasNamespace = false then Except.ok none
  else if nameTemplate.length = 0 ∨ namespaceTemplate.length = 0 then
    Except.error (nameKey ++ " and " ++ namespaceKey ++ " parameters must be specified together")
  else
    match resolveTemplate namespaceTemplate (namespaceParamsOf pvName pvc) with
    | Except.error e =>
      Except.error ("error resolving " ++ namespaceKey ++ " value " ++
        goQuote namespaceTemplate ++ ": " ++ e)
    | Except.ok resolvedNamespace =>
      if isDNS1123Label resolvedNamespace = false then
        if namespaceTemplate ≠ resolvedNamespace then
          Except.error (namespaceKey ++ " parameter " ++ goQuote namespaceTemplate ++
            " resolved to " ++ goQuote resolvedNamespace ++
            " which is not a valid namespace name")
        else
          Except.error (namespaceKey ++ " parameter " ++ goQuote namespaceTemplate ++
            " is not a valid namespace name")
      else
        match resolveTemplate nameTemplate (nameParamsOf pvName pvc) with
        | Except.error e =>
          Except.error ("error resolving " ++ nameKey ++ " value " ++
            goQuote nameTemplate ++ ": " ++ e)
        | Except.ok resolvedName =>
          if isDNS1123Subdomain resolvedName = false then
            if nameTemplate ≠ resolvedName then
              Except.error (nameKey ++ " parameter " ++ goQuote nameTemplate ++
                " resolved to " ++ goQuote resolvedName ++
                " which is not a valid secret name")
            else
              Except.error (nameKey ++ " parameter " ++ goQuote nameTemplate ++
                " is not a valid secret name")
          else Except.ok (some { ns := resolvedNamespace, name := resolvedName })

theorem backoff_all_deadline_aux (driver : Nat → Except GoError CsiVolume) :
    ∀ (n made : Nat),
      (∀ k, k < n → ∃ m, driver (made + k) = Except.error (GoError.grpc codeDeadlineExceeded m)) →
      exponentialBackoffAux (createVolumeCondition driver) n made =
        (some errWaitTimeout, made + n) := by
  intro n
  induction n with
  | zero => intro made _; simp [exponentialBackoffAux]
  | succ n ih =>
    intro made h
    obtain ⟨m, hm⟩ := h 0 (Nat.succ_pos n)
    rw [Nat.add_zero] at hm
    have step : createVolumeCondition driver made = (false, none) := by
      simp [createVolumeCondition, hm, isDeadlineRetryable]
    have hrec := ih (made + 1) (fun k hk => by
      have h2 := h (k + 1) (Nat.succ_lt_succ hk)
      have eq : made + (k + 1) = made + 1 + k := by omega
      rwa [eq] at h2)
    rw [show made + (n + 1) = made + 1 + n from by omega]
    simp only [exponentialBackoffAux, step]
    simpa using hrec

theorem backoff_abort_aux (driver : Nat → Except GoError CsiVolume) :
    ∀ (n made i : Nat) (e : GoError), i < n →
      (∀ k, k < i → ∃ m, driver (made + k) = Except.error (GoError.grpc codeDeadlineExceeded m)) →
      driver (made + i) = Except.error e → isDeadlineRetryable e = false →
      exponentialBackoffAux (createVolumeCondition driver) n made = (some e, made + i + 1) := by
  intro n
  induction n with
  | zero => intro made i e hi _ _ _; exact absurd hi (Nat.not_lt_zero i)
  | succ n ih =>
    intro made i e hi hdl hde hnr
    cases i with
    | zero =>
      rw [Nat.add_zero] at hde
      have step : createVolumeCondition driver made = (false, some e) := by
        simp [createVolumeCondition, hde, hnr]
      simp [exponentialBackoffAux, step]
    | succ i =>
      obtain ⟨m, hm⟩ := hdl 0 (Nat.succ_pos i)
      rw [Nat.add_zero] at hm
      have step : createVolumeCondition driver made = (false, none) := by
        simp [createVolumeCondition, hm, isDeadlineRetryable]
      have hde2 : driver (made + 1 + i) = Except.error e := by
        have eq : made + 1 + i = made + (i + 1) := by omega
        rw [eq]; exact hde
      have hrec := ih (made + 1) i e (by omega)
        (fun k hk => by
          have h2 := hdl (k + 1) (Nat.succ_lt_succ hk)
          have eq : made + (k + 1) = made + 1 + k := by omega
          rwa [eq] at h2)
        hde2 hnr
      rw [show made + (i + 1) + 1 = made + 1 + i + 1 from by omega]
      simp only [exponentialBackoffAux, step]
      simpa using hrec

/-- Claim C1 (counterexample): with `backoffSteps = 10` and a driver that
returns a deadline-exceeded gRPC error on every attempt, the value
`Provision` returns after the backoff loop is `wait.ErrWaitTimeout`
("timed out waiting for the condition"), which is not the driver's
deadline-exceeded error — contradicting the claim that the deadline-exceeded
error itself is returned. -/
theorem provision_backoff_exhaustion_counterexample :
    provisionCreateVolume backoffSteps
        (fun _ => Except.error (GoError.grpc 4 "context deadline exceeded")) =
      (some errWaitTimeout, 10)
    ∧ errWaitTimeout ≠ GoError.grpc 4 "context deadline exceeded" := by
  exact ⟨by decide, by decide⟩

/-- Claim C1 (amended): in the create-volume backoff loop of `Provision`, a
per-attempt deadline-exceeded error causes a retry and any other error
aborts the loop immediately and is returned unchanged; when the driver
returns deadline-exceeded on every attempt the loop makes exactly the
configured number of steps of attempts, but the error `Provision` returns is
`wait.ErrWaitTimeout` ("timed out waiting for the condition"), not the
deadline-exceeded error. -/
theorem provision_backoff_spec (steps : Nat) (driver : Nat → Except GoError CsiVolume) :
    ((∀ i, i < steps → ∃ m, driver i = Except.error (GoError.grpc codeDeadlineExceeded m)) →
        provisionCreateVolume steps driver = (some errWaitTimeout, steps))
    ∧ (∀ i e, i < steps →
        (∀ j, j < i → ∃ m, driver j = Except.error (GoError.grpc codeDeadlineExceeded m)) →
        driver i = Except.error e → isDeadlineRetryable e = false →
        provisionCreateVolume steps driver = (some e, i + 1)) := by
  constructor
  · intro h
    have := backoff_all_deadline_aux driver steps 0 (fun k hk => by
      have h2 := h k hk
      rwa [Nat.zero_add])
    simpa [provisionCreateVolume, exponentialBackoff] using this
  · intro i e hi hdl hde hnr
    have := backoff_abort_aux driver steps 0 i e hi
      (fun k hk => by have h2 := hdl k hk; rwa [Nat.zero_add])
      (by rwa [Nat.zero_add]) hnr
    simpa [provisionCreateVolume, exponentialBackoff] using this

/-- Witness for the amended C1 theorem: a driver that is deadline-exceeded
on attempts 0-2 and fails with a plain error on attempt 3 makes the loop
return that error after exactly 4 attempts. -/
theorem provision_backoff_spec_witness :
    provisionCreateVolume 10
        (fun i => if i < 3 then Except.error (GoError.grpc 4 "slow")
          else Except.error (GoError.plain "boom")) =
      (some (GoError.plain "boom"), 3 + 1) :=
  (provision_backoff_spec 10 _).2 3 (GoError.plain "boom") (by omega)
    (fun j hj => ⟨"slow", if_pos hj⟩) (if_neg (by omega)) (by decide)

/-- Claim C2: whenever the driver-reported capacity is strictly below the
requested capacity, the post-create check of `Provision` fails (no volume is
returned), exactly one compensating `DeleteVolume` call is issued for the
returned volume id, and when that delete itself fails the returned error
additionally states that the volume is orphaned. -/
theorem provision_capacity_violation (vol : CsiVolume) (volSize : Int) (pvName : String)
    (deleteVolume : String → Option String) (hlt : vol.capacityBytes < volSize) :
    ((provisionCapacityCheck vol volSize pvName deleteVolume).2 = [vol.id])
    ∧ (deleteVolume vol.id = none →
        (provisionCapacityCheck vol volSize pvName deleteVolume).1 =
          Except.error ("created volume capacity " ++ toString vol.capacityBytes ++
            " less than requested capacity " ++ toString volSize))
    ∧ (∀ e, deleteVolume vol.id = some e →
        (provisionCapacityCheck vol volSize pvName deleteVolume).1 =
          Except.error ("created volume capacity " ++ toString vol.capacityBytes ++
            " less than requested capacity " ++ toString volSize ++
            ". Cleanup of volume " ++ pvName ++ " failed, volume is orphaned: " ++ e)) := by
  refine ⟨?_, ?_, ?_⟩
  · cases h : deleteVolume vol.id <;> simp [provisionCapacityCheck, hlt, h]
  · intro h; simp [provisionCapacityCheck, hlt, h]
  · intro e h; simp [provisionCapacityCheck, hlt, h]

/-- Witness for the C2 theorem: a volume of 512 bytes against a 1024-byte
request, with a failing compensating delete, yields the orphaned-volume
error and a single delete call for the returned id. -/
theorem provision_capacity_violation_witness :
    (provisionCapacityCheck { id := "vol-7", capacityBytes := 512, attributes := [] }
        1024 "pv-7" (fun _ => some "driver busy")).2 = ["vol-7"]
    ∧ (provisionCapacityCheck { id := "vol-7", capacityBytes := 512, attributes := [] }
        1024 "pv-7" (fun _ => some "driver busy")).1 =
      Except.error ("created volume capacity 512 less than requested capacity 1024" ++
        ". Cleanup of volume pv-7 failed, volume is orphaned: driver busy") := by
  refine ⟨(provision_capacity_violation _ 1024 "pv-7" _ (by decide)).1, ?_⟩
  have := (provision_capacity_violation
      { id := "vol-7", capacityBytes := 512, attributes := [] } 1024 "pv-7"
      (fun _ => some "driver busy") (by decide)).2.2 "driver busy" rfl
  simpa using this

/-- Claim C4: `makeVolumeName` is deterministic; with a configured
truncation length (not -1), any normally returned name consists of the
prefix, a dash, and an identifier portion of exactly that length with no
dash characters; with no configured length (-1) the full identifier is kept
with its dashes; an empty prefix or empty identifier yields an error. -/
theorem makeVolumeName_spec (pfx uid : String) (L : Int) :
    (makeVolumeName pfx uid L = makeVolumeName pfx uid L)
    ∧ (pfx.length ≠ 0 → uid.length ≠ 0 → L = -1 →
        makeVolumeName pfx uid L = some (Except.ok (pfx ++ "-" ++ uid)))
    ∧ (∀ name, L ≠ -1 → makeVolumeName pfx uid L = some (Except.ok name) →
        ∃ ident, name = pfx ++ "-" ++ ident ∧ ident.length = L.toNat ∧
          ∀ c ∈ ident.toList, c ≠ '-')
    ∧ (makeVolumeName "" uid L =
        some (Except.error "Volume name prefix cannot be of length 0"))
    ∧ (pfx.length ≠ 0 → makeVolumeName pfx "" L =
        some (Except.error "corrupted PVC object, it is missing UID")) := by
  refine ⟨rfl, ?_, ?_, ?_, ?_⟩
  · intro hp hu hL
    simp [makeVolumeName, hp, hu, hL]
  · intro name hL h
    by_cases hp : pfx.length = 0
    · simp [makeVolumeName, hp] at h
    by_cases hu : uid.length = 0
    · simp [makeVolumeName, hp, hu] at h
    unfold makeVolumeName at h
    rw [if_neg hp, if_neg hu, if_neg hL] at h
    by_cases hg : 0 ≤ L ∧ L.toNat ≤ (uid.toList.filter (fun c => c != '-')).length
    · rw [if_pos hg] at h
      refine ⟨String.mk ((uid.toList.filter (fun c => c != '-')).take L.toNat), ?_, ?_, ?_⟩
      · have h2 := Option.some.inj h
        injection h2 with h3
        exact h3.symm
      · show ((uid.toList.filter (fun c => c != '-')).take L.toNat).length = L.toNat
        rw [List.length_take]
        exact Nat.min_eq_left hg.2
      · intro c hc
        have hmem : c ∈ uid.toList.filter (fun c => c != '-') :=
          List.take_subset _ _ hc
        have := (List.mem_filter.mp hmem).2
        simpa using this
    · rw [if_neg hg] at h
      exact absurd h (by simp)
  · simp [makeVolumeName]
  · intro hp
    simp [makeVolumeName, hp]

/-- Witness for the C4 theorem: with truncation length 6 the name derived
from identifier "ab-cd-ef" is "pvc-abcdef", whose identifier portion has
length 6 and no dashes. -/
theorem makeVolumeName_spec_witness :
    ∃ ident, "pvc-abcdef" = "pvc" ++ "-" ++ ident ∧ ident.length = (6 : Int).toNat ∧
      ∀ c ∈ ident.toList, c ≠ '-' :=
  (makeVolumeName_spec "pvc" "ab-cd-ef" 6).2.2.1 "pvc-abcdef" (by decide) rfl

/-- Claim C9: with a non-negative configured truncation length, the
truncating branch of `makeVolumeName` panics (slice out of range) whenever
the dash-stripped identifier has fewer characters than the length, and
returns a name whenever it has at least that many. -/
theorem makeVolumeName_truncation_panics (pfx uid : String) (L : Int)
    (hp : pfx.length ≠ 0) (hu : uid.length ≠ 0) (hL : 0 ≤ L) :
    ((uid.toList.filter (fun c => c != '-')).length < L.toNat →
        makeVolumeName pfx uid L = none)
    ∧ (L.toNat ≤ (uid.toList.filter (fun c => c != '-')).length →
        ∃ name, makeVolumeName pfx uid L = some (Except.ok name)) := by
  have hL1 : L ≠ -1 := by omega
  constructor
  · intro hshort
    unfold makeVolumeName
    rw [if_neg hp, if_neg hu, if_neg hL1, if_neg]
    intro hg
    omega
  · intro hlong
    unfold makeVolumeName
    rw [if_neg hp, if_neg hu, if_neg hL1, if_pos ⟨hL, hlong⟩]
    exact ⟨_, rfl⟩

/-- Witness for the C9 theorem: identifier "ab-cd" strips to "abcd" (4
characters), so truncation length 10 panics. -/
theorem makeVolumeName_truncation_panics_witness :
    makeVolumeName "pvc" "ab-cd" 10 = none :=
  (makeVolumeName_truncation_panics "pvc" "ab-cd" 10 (by decide) (by decide)
    (by decide)).1 (by decide)

/-- Claim C10: a claim data source with a non-empty name, kind
"VolumeSnapshot", and a nil APIGroup pointer makes `Provision` panic on the
dereference `*(options.PVC.Spec.DataSource.APIGroup)` instead of returning
an error. -/
theorem provision_datasource_nil_apigroup (pvcName : String) (d : DataSource)
    (hn : d.name ≠ "") (hk : d.kind = snapshotKind) (hg : d.apiGroup = none) :
    checkDataSource pvcName (some d) = none
    ∧ ∀ msg, checkDataSource pvcName (some d) ≠ some (Except.error msg) := by
  have h : checkDataSource pvcName (some d) = none := by
    simp [checkDataSource, hn, hk, hg]
  exact ⟨h, fun msg hc => by rw [h] at hc; exact Option.noConfusion hc⟩

/-- Witness for the C10 theorem: a concrete snapshot data source with a nil
APIGroup pointer reaches the panic. -/
theorem provision_datasource_nil_apigroup_witness :
    checkDataSource "claim-1"
        (some { name := "snap-1", kind := "VolumeSnapshot", apiGroup := none }) = none :=
  (provision_datasource_nil_apigroup "claim-1"
    { name := "snap-1", kind := "VolumeSnapshot", apiGroup := none }
    (by decide) (by decide) rfl).1

/-- Last character of an appended string is the last character of its
non-empty second part. -/
theorem string_append_data_getLast (s t : String) (c : Char)
    (h : t.data.getLast? = some c) : (s ++ t).data.getLast? = some c := by
  rw [String.data_append,
    List.getLast?_append_of_ne_nil _ (by intro hc; rw [hc] at h; simp at h), h]

/-- Concrete not-ready snapshot used at the C3 counterexample. -/
def snapNotReady : VolumeSnapshot where
  name := "snap-1"
  ns := "ns-1"
  uid := "uid-1"
  snapshotContentName := "content-1"
  statusReady := false
  beingDeleted := false
  restoreSize := none

/-- Claim C3 (counterexample): a snapshot that is not ready yields the
specific message "snapshot snap-1 is not Ready", which is not the
"not bound or invalid" string the claim asserts for all five failure
conditions. -/
theorem contentSource_notReady_counterexample :
    getVolumeContentSource "pvc-1" "ns-1" "snap-1" (some 100)
        (fun _ _ => Except.ok snapNotReady) (fun _ => Except.error "api unavailable") =
      Except.error "snapshot snap-1 is not Ready"
    ∧ "snapshot snap-1 is not Ready" ≠ snapshotNotBoundMsg := by
  exact ⟨rfl, by decide⟩

/-- Claim C3 (amended): of the five failure conditions of
`getVolumeContentSource`, the three content-object conditions — content
object not bound/unfetchable, content object bound to a different snapshot,
and content object missing a driver snapshot handle — yield the identical
"snapshot in dataSource not bound or invalid" message, while a not-ready
snapshot and a being-deleted snapshot yield their own specific messages
naming the snapshot, each distinct from that shared message and from each
other. -/
theorem contentSource_message_spec
    (pvcName pvcNs dsName : String) (req : Option Int)
    (getSnap : String → String → Except String VolumeSnapshot)
    (getCont : String → Except String VolumeSnapshotContent)
    (snap : VolumeSnapshot)
    (hsnap : getSnap pvcNs dsName = Except.ok snap) :
    (snap.statusReady = false →
        getVolumeContentSource pvcName pvcNs dsName req getSnap getCont =
          Except.error ("snapshot " ++ dsName ++ " is not Ready"))
    ∧ (snap.statusReady = true → snap.beingDeleted = true →
        getVolumeContentSource pvcName pvcNs dsName req getSnap getCont =
          Except.error ("snapshot " ++ dsName ++ " is currently being deleted"))
    ∧ (snap.statusReady = true → snap.beingDeleted = false →
        (∀ e, getCont snap.snapshotContentName = Except.error e →
          getVolumeContentSource pvcName pvcNs dsName req getSnap getCont =
            Except.error snapshotNotBoundMsg))
    ∧ (snap.statusReady = true → snap.beingDeleted = false →
        (∀ content, getCont snap.snapshotContentName = Except.ok content →
          (content.volumeSnapshotRef = none →
            getVolumeContentSource pvcName pvcNs dsName req getSnap getCont =
              Except.error snapshotNotBoundMsg)
          ∧ (∀ ref, content.volumeSnapshotRef = some ref →
              (ref.uid ≠ snap.uid ∨ ref.ns ≠ snap.ns ∨ ref.name ≠ snap.name →
                getVolumeContentSource pvcName pvcNs dsName req getSnap getCont =
                  Except.error snapshotNotBoundMsg)
              ∧ (ref.uid = snap.uid → ref.ns = snap.ns → ref.name = snap.name →
                  content.csiSnapshotHandle = none →
                  getVolumeContentSource pvcName pvcNs dsName req getSnap getCont =
                    Except.error snapshotNotBoundMsg))))
    ∧ ("snapshot " ++ dsName ++ " is not Ready") ≠ snapshotNotBoundMsg
    ∧ ("snapshot " ++ dsName ++ " is currently being deleted") ≠ snapshotNotBoundMsg
    ∧ ("snapshot " ++ dsName ++ " is not Ready") ≠
        ("snapshot " ++ dsName ++ " is currently being deleted") := by
  refine ⟨?_, ?_, ?_, ?_, ?_, ?_, ?_⟩
  · intro h1
    simp [getVolumeContentSource, hsnap, h1]
  · intro h1 h2
    simp [getVolumeContentSource, hsnap, h1, h2]
  · intro h1 h2 e he
    simp [getVolumeContentSource, hsnap, h1, h2, he]
  · intro h1 h2 content hc
    refine ⟨?_, ?_⟩
    · intro hr
      simp [getVolumeContentSource, hsnap, h1, h2, hc, hr]
    · intro ref hr
      refine ⟨?_, ?_⟩
      · intro hmis
        rcases hmis with h | h | h <;>
          simp [getVolumeContentSource, hsnap, h1, h2, hc, hr, h]
      · intro huid hns hname hcsi
        simp [getVolumeContentSource, hsnap, h1, h2, hc, hr, huid, hns, hname, hcsi]
  · intro hc
    have h1 := string_append_data_getLast ("snapshot " ++ dsName) " is not Ready" 'y' (by decide)
    rw [hc] at h1
    exact absurd h1 (by decide)
  · intro hc
    have h1 : (("snapshot " ++ dsName ++ " is currently being deleted").data.reverse.take 2) =
        (" is currently being deleted" : String).data.reverse.take 2 := by
      rw [String.data_append, List.reverse_append,
        List.take_append_of_le_length (by decide)]
    rw [hc] at h1
    exact absurd h1 (by decide)
  · intro hc
    have h1 := string_append_data_getLast ("snapshot " ++ dsName) " is not Ready" 'y' (by decide)
    have h2 := string_append_data_getLast ("snapshot " ++ dsName)
      " is currently being deleted" 'd' (by decide)
    rw [hc] at h1
    rw [h2] at h1
    exact absurd h1 (by decide)

/-- Concrete ready snapshot with a bound content object, used at witnesses. -/
def snapReady : VolumeSnapshot where
  name := "snap-2"
  ns := "ns-2"
  uid := "uid-2"
  snapshotContentName := "content-2"
  statusReady := true
  beingDeleted := false
  restoreSize := none

/-- Concrete content object bound to a different snapshot (UID mismatch). -/
def contentStale : VolumeSnapshotContent where
  volumeSnapshotRef := some { uid := "other-uid", ns := "ns-2", name := "snap-2" }
  csiSnapshotHandle := some "handle-2"

/-- Witness for the amended C3 theorem: a content object bound to a
different snapshot (UID mismatch) yields the shared "not bound or invalid"
message. -/
theorem contentSource_message_spec_witness :
    getVolumeContentSource "pvc-2" "ns-2" "snap-2" (some 100)
        (fun _ _ => Except.ok snapReady) (fun _ => Except.ok contentStale) =
      Except.error snapshotNotBoundMsg :=
  ((((contentSource_message_spec "pvc-2" "ns-2" "snap-2" (some 100)
      (fun _ _ => Except.ok snapReady) (fun _ => Except.ok contentStale)
      snapReady rfl).2.2.2.1 rfl rfl contentStale rfl).2
      { uid := "other-uid", ns := "ns-2", name := "snap-2" } rfl).1
    (Or.inl (by decide)))

/-- Concrete ready snapshot carrying a restore size of 2048 bytes. -/
def snapWithRestoreSize : VolumeSnapshot where
  name := "snap-3"
  ns := "ns-3"
  uid := "uid-3"
  snapshotContentName := "content-3"
  statusReady := true
  beingDeleted := false
  restoreSize := some 2048

/-- Concrete content object correctly bound to `snapWithRestoreSize`. -/
def contentBound : VolumeSnapshotContent where
  volumeSnapshotRef := some { uid := "uid-3", ns := "ns-3", name := "snap-3" }
  csiSnapshotHandle := some "handle-3"

/-- Claim C8: when the content-source snapshot carries a restore size,
`getVolumeContentSource` fails if the claim's requested capacity is strictly
below the restore size, and succeeds (returning the snapshot handle) when
the requested capacity equals or exceeds it. -/
theorem contentSource_restore_size_spec
    (pvcName pvcNs dsName handle : String) (cap rs : Int)
    (getSnap : String → String → Except String VolumeSnapshot)
    (getCont : String → Except String VolumeSnapshotContent)
    (snap : VolumeSnapshot) (content : VolumeSnapshotContent) (ref : SnapshotRef)
    (hsnap : getSnap pvcNs dsName = Except.ok snap)
    (hready : snap.statusReady = true)
    (hdel : snap.beingDeleted = false)
    (hcont : getCont snap.snapshotContentName = Except.ok content)
    (href : content.volumeSnapshotRef = some ref)
    (huid : ref.uid = snap.uid) (hns : ref.ns = snap.ns) (hname : ref.name = snap.name)
    (hcsi : content.csiSnapshotHandle = some handle)
    (hrs : snap.restoreSize = some rs) :
    (cap < rs →
        getVolumeContentSource pvcName pvcNs dsName (some cap) getSnap getCont =
          Except.error ("requested volume size " ++ toString cap ++
            " is less than the size " ++ toString rs ++
            " for the source snapshot " ++ snap.name))
    ∧ (rs ≤ cap →
        getVolumeContentSource pvcName pvcNs dsName (some cap) getSnap getCont =
          Except.ok handle) := by
  constructor
  · intro hcmp
    simp [getVolumeContentSource, hsnap, hready, hdel, hcont, href, huid, hns, hname,
      hcsi, hrs, hcmp]
  · intro hcmp
    simp [getVolumeContentSource, hsnap, hready, hdel, hcont, href, huid, hns, hname,
      hcsi, hrs]
    omega

/-- Witness for the C8 theorem: requested capacity 4096 against restore size
2048 succeeds and returns the driver snapshot handle. -/
theorem contentSource_restore_size_spec_witness :
    getVolumeContentSource "pvc-3" "ns-3" "snap-3" (some 4096)
        (fun _ _ => Except.ok snapWithRestoreSize) (fun _ => Except.ok contentBound) =
      Except.ok "handle-3" :=
  (contentSource_restore_size_spec "pvc-3" "ns-3" "snap-3" "handle-3" 4096 2048
    (fun _ _ => Except.ok snapWithRestoreSize) (fun _ => Except.ok contentBound)
    snapWithRestoreSize contentBound { uid := "uid-3", ns := "ns-3", name := "snap-3" }
    rfl rfl rfl rfl rfl rfl rfl rfl rfl rfl).2 (by omega)

/-- Claim C5: when neither the secret-name key nor the secret-namespace key
is present in the parameter map, `getSecretReference` returns a nil
reference and no error; when exactly one of the two is present it fails with
the "must be specified together" error. -/
theorem getSecretReference_pairing (nameKey namespaceKey : String)
    (params : List (String × String)) (pvName : String) (pvc : Option PVCInfo) :
    (params.lookup nameKey = none → params.lookup namespaceKey = none →
        getSecretReference nameKey namespaceKey params pvName pvc = Except.ok none)
    ∧ (∀ t, params.lookup nameKey = some t → params.lookup namespaceKey = none →
        getSecretReference nameKey namespaceKey params pvName pvc =
          Except.error (nameKey ++ " and " ++ namespaceKey ++
            " parameters must be specified together"))
    ∧ (∀ t, params.lookup nameKey = none → params.lookup namespaceKey = some t →
        getSecretReference nameKey namespaceKey params pvName pvc =
          Except.error (nameKey ++ " and " ++ namespaceKey ++
            " parameters must be specified together")) := by
  refine ⟨?_, ?_, ?_⟩
  · intro h1 h2
    simp [getSecretReference, h1, h2]
  · intro t h1 h2
    simp [getSecretReference, h1, h2]
  · intro t h1 h2
    simp [getSecretReference, h1, h2]

/-- Witness for the C5 theorem: a parameter map carrying only the name key
fails with the pairing error. -/
theorem getSecretReference_pairing_witness :
    getSecretReference "csiProvisionerSecretName" "csiProvisionerSecretNamespace"
        [("csiProvisionerSecretName", "sec")] "pv-1" none =
      Except.error ("csiProvisionerSecretName" ++ " and " ++ "csiProvisionerSecretNamespace" ++
        " parameters must be specified together") :=
  (getSecretReference_pairing "csiProvisionerSecretName" "csiProvisionerSecretNamespace"
    [("csiProvisionerSecretName", "sec")] "pv-1" none).2.1 "sec" rfl rfl

/-- Claim C7: the resolved namespace must be a valid DNS label and the
resolved name a valid DNS subdomain; a literal valid template passes through
unchanged; a template resolving to a different, invalid value fails with an
error naming both the template and the resolved value; a literal invalid
template fails with an error naming the template alone. -/
theorem getSecretReference_validation (nameKey namespaceKey : String)
    (params : List (String × String)) (pvName : String) (pvc : Option PVCInfo)
    (nameT nsT : String)
    (hn : params.lookup nameKey = some nameT)
    (hns : params.lookup namespaceKey = some nsT)
    (hnlen : nameT.length ≠ 0) (hnslen : nsT.length ≠ 0) :
    (∀ v, resolveTemplate nsT (namespaceParamsOf pvName pvc) = Except.ok v →
        isDNS1123Label v = false → nsT ≠ v →
        getSecretReference nameKey namespaceKey params pvName pvc =
          Except.error (namespaceKey ++ " parameter " ++ goQuote nsT ++
            " resolved to " ++ goQuote v ++ " which is not a valid namespace name"))
    ∧ (resolveTemplate nsT (namespaceParamsOf pvName pvc) = Except.ok nsT →
        isDNS1123Label nsT = false →
        getSecretReference nameKey namespaceKey params pvName pvc =
          Except.error (namespaceKey ++ " parameter " ++ goQuote nsT ++
            " is not a valid namespace name"))
    ∧ (∀ v, resolveTemplate nsT (namespaceParamsOf pvName pvc) = Except.ok nsT →
        isDNS1123Label nsT = true →
        resolveTemplate nameT (nameParamsOf pvName pvc) = Except.ok v →
        isDNS1123Subdomain v = false → nameT ≠ v →
        getSecretReference nameKey namespaceKey params pvName pvc =
          Except.error (nameKey ++ " parameter " ++ goQuote nameT ++
            " resolved to " ++ goQuote v ++ " which is not a valid secret name"))
    ∧ (resolveTemplate nsT (namespaceParamsOf pvName pvc) = Except.ok nsT →
        isDNS1123Label nsT = true →
        resolveTemplate nameT (nameParamsOf pvName pvc) = Except.ok nameT →
        isDNS1123Subdomain nameT = false →
        getSecretReference nameKey namespaceKey params pvName pvc =
          Except.error (nameKey ++ " parameter " ++ goQuote nameT ++
            " is not a valid secret name"))
    ∧ (resolveTemplate nsT (namespaceParamsOf pvName pvc) = Except.ok nsT →
        isDNS1123Label nsT = true →
        resolveTemplate nameT (nameParamsOf pvName pvc) = Except.ok nameT →
        isDNS1123Subdomain nameT = true →
        getSecretReference nameKey namespaceKey params pvName pvc =
          Except.ok (some { ns := nsT, name := nameT })) := by
  refine ⟨?_, ?_, ?_, ?_, ?_⟩
  · intro v hres hval hne
    simp [getSecretReference, hn, hns, hnlen, hnslen, hres, hval, hne]
  · intro hres hval
    simp [getSecretReference, hn, hns, hnlen, hnslen, hres, hval]
  · intro v hres1 hval1 hres2 hval2 hne
    simp [getSecretReference, hn, hns, hnlen, hnslen, hres1, hval1, hres2, hval2, hne]
  · intro hres1 hval1 hres2 hval2
    simp [getSecretReference, hn, hns, hnlen, hnslen, hres1, hval1, hres2, hval2]
  · intro hres1 hval1 hres2 hval2
    simp [getSecretReference, hn, hns, hnlen, hnslen, hres1, hval1, hres2, hval2]

/-- Witness for the C7 theorem: literal templates "default" (a valid DNS
label) and "secret-name" (a valid DNS subdomain) pass through unchanged. -/
theorem getSecretReference_validation_witness :
    getSecretReference "csiProvisionerSecretName" "csiProvisionerSecretNamespace"
        [("csiProvisionerSecretName", "secret-name"),
          ("csiProvisionerSecretNamespace", "default")] "pv-1" none =
      Except.ok (some { ns := "default", name := "secret-name" }) :=
  (getSecretReference_validation "csiProvisionerSecretName" "csiProvisionerSecretNamespace"
    [("csiProvisionerSecretName", "secret-name"),
      ("csiProvisionerSecretNamespace", "default")] "pv-1" none
    "secret-name" "default" rfl rfl (by decide) (by decide)).2.2.2.2
    rfl (by decide) rfl (by decide)

theorem mem_sortedInsert (x y : String) (l : List String) :
    y ∈ sortedInsert x l ↔ y = x ∨ y ∈ l := by
  induction l with
  | nil => simp [sortedInsert]
  | cons z rest ih =>
    simp only [sortedInsert]
    split_ifs with h1 h2
    all_goals try subst h1
    all_goals simp only [List.mem_cons, ih]
    all_goals tauto

theorem mem_sortedDedup_aux (x : String) (l : List String) :
    ∀ acc, x ∈ l.foldl (fun a b => sortedInsert b a) acc ↔ x ∈ acc ∨ x ∈ l := by
  induction l with
  | nil => intro acc; simp
  | cons y rest ih =>
    intro acc
    simp only [List.foldl_cons, ih, mem_sortedInsert, List.mem_cons]
    tauto

theorem mem_sortedDedup (x : String) (l : List String) :
    x ∈ sortedDedup l ↔ x ∈ l := by
  unfold sortedDedup
  simp [mem_sortedDedup_aux]

theorem mem_expandGo_missing (params : List (String × String)) :
    ∀ (fuel : Nat) (s : List Char) (t : String),
      t ∈ (expandGo params fuel s).2.2 ↔
        t ∈ (expandGo params fuel s).2.1 ∧ params.lookup t = none := by
  intro fuel
  induction fuel with
  | zero => intro s t; simp [expandGo]
  | succ n ih =>
    intro s t
    cases s with
    | nil => simp [expandGo]
    | cons c rest =>
      by_cases h : c = '$' ∧ rest ≠ []
      · cases hl : params.lookup (String.mk (getShellName rest).1) with
        | some v =>
          simp only [expandGo]
          rw [if_pos h]
          dsimp only
          rw [hl]
          simp only [Option.isSome_some, eq_self_iff_true, if_true, List.mem_cons, ih]
          constructor
          · rintro ⟨hm, hno⟩
            exact ⟨Or.inr hm, hno⟩
          · rintro ⟨he | hm, hno⟩
            · rw [he, hl] at hno
              exact Option.noConfusion hno
            · exact ⟨hm, hno⟩
        | none =>
          simp only [expandGo]
          rw [if_pos h]
          dsimp only
          rw [hl]
          simp only [Option.isSome_none, Bool.false_eq_true, if_false, List.mem_cons, ih]
          constructor
          · rintro (he | ⟨hm, hno⟩)
            · exact ⟨Or.inl he, by rw [he]; exact hl⟩
            · exact ⟨Or.inr hm, hno⟩
          · rintro ⟨he | hm, hno⟩
            · exact Or.inl he
            · exact Or.inr ⟨hm, hno⟩
      · simp only [expandGo]
        rw [if_neg h]
        dsimp only
        exact ih rest t

/-- Claim C6: whenever the `os.Expand` scan of a template hands the mapping
a token that is absent from the parameter map, `resolveTemplate` fails and
the "invalid tokens" error enumerates every missing token of the template,
not only the first one. -/
theorem resolveTemplate_missing_spec (template : String) (params : List (String × String))
    (tok : String) (hmem : tok ∈ templateTokens params template)
    (hmiss : params.lookup tok = none) :
    ∃ L, resolveTemplate template params =
        Except.error ("invalid tokens: " ++ quoteList L)
      ∧ tok ∈ L
      ∧ ∀ t, t ∈ templateTokens params template → params.lookup t = none → t ∈ L := by
  have hraw : tok ∈ (expandGo params (template.length + 1) template.toList).2.2 :=
    (mem_expandGo_missing params _ _ tok).mpr ⟨hmem, hmiss⟩
  have hded : tok ∈ sortedDedup (expandGo params (template.length + 1) template.toList).2.2 :=
    (mem_sortedDedup _ _).mpr hraw
  refine ⟨sortedDedup (expandGo params (template.length + 1) template.toList).2.2,
    ?_, hded, ?_⟩
  · unfold resolveTemplate
    rw [if_pos (List.length_pos.mpr (List.ne_nil_of_mem hded))]
  · intro t ht hno
    exact (mem_sortedDedup _ _).mpr ((mem_expandGo_missing params _ _ t).mpr ⟨ht, hno⟩)

/-- Opening brace character as a string. -/
def lbrace : String := String.singleton (Char.ofNat 123)

/-- Closing brace character as a string. -/
def rbrace : String := String.singleton (Char.ofNat 125)

/-- A template referencing the two tokens pvc.name and pvc.namespace in
dollar-brace form. -/
def tmplTwoTokens : String :=
  "$" ++ lbrace ++ "pvc.name" ++ rbrace ++ "-$" ++ lbrace ++ "pvc.namespace" ++ rbrace

/-- Witness for the C6 theorem: against an empty parameter map, a template
referencing pvc.name and pvc.namespace fails and the error list contains
both missing tokens. -/
theorem resolveTemplate_missing_spec_witness :
    ∃ L, resolveTemplate tmplTwoTokens [] =
        Except.error ("invalid tokens: " ++ quoteList L)
      ∧ "pvc.name" ∈ L
      ∧ ∀ t, t ∈ templateTokens [] tmplTwoTokens →
          List.lookup t ([] : List (String × String)) = none → t ∈ L :=
  resolveTemplate_missing_spec tmplTwoTokens [] "pvc.name" (by decide) rfl
